import Mathlib

/-!
# Verification of the rayexec execution-engine core

Shallow embedding of the parts of the `rayexec` SQL execution engine that the
spec's claims are about:

* the logical/physical type taxonomy (`DataType`, `PhysicalType`),
* the bind context / table list arena (`TableList`),
* column expressions and their lazy type resolution (`ColumnExpr.datatype`),
* comparison operators and join conditions (`ComparisonOperator.flip`,
  `ComparisonCondition.flip_sides`),
* the logical operator tree with table-ref bookkeeping
  (`LogicalOperator.get_output_table_refs`, `JoinType.output_refs`),
* the `Rem` (`%`) scalar function: signature dispatch in `Rem.plan` and
  batch execution through the binary kernel executor,
* the `QueryPlanner` lowering of `Values` queries,
* the `DatabaseContext` catalog map (attach/detach/lookup),
* the `PhysicalPlanner` entry point.

Rust `Result<T>` is embedded as `Except RayexecError T`.  The source's errors
are strings built with `format!`; here they are modelled as structured
variants (one per distinct message shape) so that statements can talk about
*which* error occurs.  Rust panics (`unimplemented!`, arithmetic panics) are
embedded as a separate `panicked` outcome, distinct from returned errors.
Mutation of `&mut self` receivers is embedded as explicit state passing.
-/

namespace Rayexec

/-- Time unit carried by timestamp types (part of the closed type enumeration;
the enumeration lives in the `rayexec_bullet` crate, its constructor list is
given by the spec's data model section). -/
inductive TimeUnit where
  | second
  | millisecond
  | microsecond
  | nanosecond
deriving DecidableEq, Repr

/-- The closed enumeration of logical SQL types.  Matches the spec's data
model: Float16/32/64, Int8/16/32/64/128, UInt8/16/32/64/128, Utf8, Binary,
Boolean, Date32/64, Timestamp (with unit), Interval, Decimal64/128
(precision, scale), List, Struct, Null.  `Rem::plan` in the source matches on
exactly these constructors. -/
inductive DataType where
  | float16
  | float32
  | float64
  | int8
  | int16
  | int32
  | int64
  | int128
  | uint8
  | uint16
  | uint32
  | uint64
  | uint128
  | utf8
  | binary
  | boolean
  | date32
  | date64
  | timestamp (unit : TimeUnit)
  | interval
  | decimal64 (precision : Nat) (scale : Nat)
  | decimal128 (precision : Nat) (scale : Nat)
  | list (inner : DataType)
  | struct_ (fields : List DataType)
  | null_

/-- Physical storage tags selecting the columnar encoding, as used by the
monomorphized arithmetic kernels (`PhysicalF16`, ..., `PhysicalU128`). -/
inductive PhysicalType where
  | f16
  | f32
  | f64
  | i8
  | i16
  | i32
  | i64
  | i128
  | u8
  | u16
  | u32
  | u64
  | u128
deriving DecidableEq, Repr

/-- An opaque arena index assigned during binding (`TableRef`). -/
abbrev TableRef := Nat

/-- Structured embedding of `RayexecError`.  The source carries a message
string; each variant here corresponds to one distinct message shape produced
by the embedded functions, so the statements can distinguish error causes. -/
inductive RayexecError where
  /-- `invalid_input_types_error(function, types)`: no signature matched the
  provided type tuple; carries the function name and the offending types. -/
  | invalidInputTypes (functionName : String) (types : List DataType)
  /-- `plan_check_num_args` failure: wrong number of arguments. -/
  | invalidNumArgs (functionName : String) (expected got : Nat)
  /-- `BindContext::get_table` failure: unknown table ref. -/
  | missingTable (tref : TableRef)
  /-- `ColumnExpr::datatype` failure: column index out of range
  ("Missing column in bind context"). -/
  | missingColumn (tref : TableRef) (column : Nat)
  /-- "Catalog with name '{name}' already attached". -/
  | alreadyExists (name : String)
  /-- "Catalog with name '{name}' doesn't exist". -/
  | catalogNotAttached (name : String)
  /-- "Missing catalog '{name}'". -/
  | missingCatalog (name : String)
  /-- "Missing system catalog". -/
  | missingSystemCatalog
  /-- Executor failure: length mismatch between the two input arrays. -/
  | lengthMismatch (left right : Nat)
  /-- Executor failure: array encoding does not match the declared storage. -/
  | physicalTypeMismatch

/-- Embedding of Rust `Result<T, RayexecError>`. -/
abbrev RResult (α : Type) := Except RayexecError α

/-- One table descriptor in the bind context: optional alias, ordered column
types, ordered column names.  Modelled from the spec: the `BindContext` /
`TableList` table arena of the binder is not part of the source fragment;
fields follow the spec's data-model section and the uses in
`column_expr.rs`, `plan_query.rs` and the `rem.rs` test. -/
structure Table where
  alias? : Option String
  column_types : List DataType
  column_names : List String

/-- `Table::num_columns`. -/
def Table.num_columns (t : Table) : Nat := t.column_types.length

/-- Modelled from the spec: the write-once arena of table descriptors indexed
by `TableRef` (`TableList` in `rem.rs`, wrapped by `BindContext` in
`column_expr.rs` / `plan_query.rs`; both expose the same `get_table`
interface; the concrete struct is not in the source fragment). -/
structure TableList where
  tables : List Table

/-- `TableList::empty`. -/
def TableList.empty : TableList := ⟨[]⟩

/-- Modelled from the spec: `push_table(alias, column_types, column_names)
-> TableRef` appends a descriptor; refs are never reused. -/
def TableList.push_table (tl : TableList) (alias? : Option String)
    (column_types : List DataType) (column_names : List String) :
    TableList × TableRef :=
  (⟨tl.tables ++ [⟨alias?, column_types, column_names⟩]⟩, tl.tables.length)

/-- Modelled from the spec: `get_table(ref)` fails if the ref is unknown. -/
def TableList.get_table (tl : TableList) (tref : TableRef) : RResult Table :=
  match tl.tables[tref]? with
  | some t => .ok t
  | none => .error (.missingTable tref)

/-- The bind context wraps the table arena; for the operations the claims
need (`get_table`) it behaves as the table list itself. -/
abbrev BindContext := TableList

/-- `ColumnExpr`: reference to a column in a query — the scope's table ref
and the column index within that table. -/
structure ColumnExpr where
  table_scope : TableRef
  column : Nat
deriving DecidableEq, Repr

/-- `ColumnExpr::datatype`: resolve the referenced table in the bind context
(propagating its error), then look up the column type, failing with a
missing-column error when the index is out of range. -/
def ColumnExpr.datatype (e : ColumnExpr) (bind_context : BindContext) :
    RResult DataType :=
  match bind_context.get_table e.table_scope with
  | .error err => .error err
  | .ok table =>
      match table.column_types[e.column]? with
      | some dt => .ok dt
      | none => .error (.missingColumn e.table_scope e.column)

/-- `ComparisonOperator`. -/
inductive ComparisonOperator where
  | eq
  | notEq
  | lt
  | ltEq
  | gt
  | gtEq
deriving DecidableEq, Repr

/-- Modelled from the spec: `ComparisonOperator::flip` lives in
`comparison_expr.rs`, which is not part of the source fragment; the spec
states `Lt.flip() == Gt`, `LtEq.flip() == GtEq`, `Eq.flip() == Eq` with the
symmetric cases, which also agrees with the `flip_comparison` unit test in
`logical_join.rs`. -/
def ComparisonOperator.flip : ComparisonOperator → ComparisonOperator
  | .eq => .eq
  | .notEq => .notEq
  | .lt => .gt
  | .ltEq => .gtEq
  | .gt => .lt
  | .gtEq => .ltEq

/-- The scalar expression tree.  The full sum type has many variants; this
embedding carries the variants whose code appears in the source fragment and
that the claims exercise: column references (`column_expr.rs`) and comparison
expressions (`ComparisonExpr`, referenced from `logical_join.rs`). -/
inductive Expression where
  | column (expr : ColumnExpr)
  | comparison (left : Expression) (right : Expression) (op : ComparisonOperator)
deriving DecidableEq, Repr

/-- `Expression::datatype`: a column resolves lazily against the bind
context; a comparison yields `Boolean`. -/
def Expression.datatype (e : Expression) (table_list : TableList) :
    RResult DataType :=
  match e with
  | .column c => c.datatype table_list
  | .comparison _ _ _ => .ok .boolean

/-- `ComparisonCondition`: left/right expressions and the operator. -/
structure ComparisonCondition where
  left : Expression
  right : Expression
  op : ComparisonOperator
deriving DecidableEq, Repr

/-- `ComparisonCondition::flip_sides`: flip the operator and swap the two
sides (the `&mut self` mutation is embedded as returning the new value). -/
def ComparisonCondition.flip_sides (c : ComparisonCondition) :
    ComparisonCondition :=
  { c with op := c.op.flip, left := c.right, right := c.left }

/-- `JoinType`: Left, Right, Inner, Full, Semi, Anti, and LeftMark carrying
its own synthetic table ref (a single boolean "had a match" column). -/
inductive JoinType where
  | left
  | right
  | inner
  | full
  | semi
  | anti
  | leftMark (table_ref : TableRef)
deriving DecidableEq, Repr

/-- `LocationRequirement` on every logical node. -/
inductive LocationRequirement where
  | any
  | clientLocal
  | remote
deriving DecidableEq, Repr

/-- `MaterializationRef`: handle naming a materialized subplan. -/
abbrev MaterializationRef := Nat

/-- Scan source (`ScanSource`).  The concrete enum lives in
`logical_scan.rs`, outside the source fragment; the constructors follow the
spec's data model, with `expressionList` pinned by its construction site in
`plan_query.rs`.  Only the variants the claims exercise are carried. -/
inductive ScanSource where
  | expressionList (rows : List (List Expression))
  | table (catalog : String) (schema : String) (entry : String)
deriving DecidableEq, Repr

/-- `LogicalScan` node payload, fields as used by `QueryPlanner::plan` in
`plan_query.rs`: table ref, column types, column names, projection indices,
and the scan source. -/
structure LogicalScan where
  table_ref : TableRef
  types : List DataType
  names : List String
  projection : List Nat
  source : ScanSource

/-- `LogicalComparisonJoin` payload: join type plus comparison conditions. -/
structure LogicalComparisonJoin where
  join_type : JoinType
  conditions : List ComparisonCondition
deriving DecidableEq, Repr

/-- `LogicalMagicJoin` payload: a comparison join from subquery
decorrelation, additionally naming the left child's materialization. -/
structure LogicalMagicJoin where
  mat_ref : MaterializationRef
  join_type : JoinType
  conditions : List ComparisonCondition

/-- `LogicalArbitraryJoin` payload: join type plus a single predicate. -/
structure LogicalArbitraryJoin where
  join_type : JoinType
  condition : Expression
deriving DecidableEq, Repr

/-- `LogicalProjection` payload (modelled from the spec: a table ref for the
outputs and the projected expressions; `logical_projection.rs` is outside
the source fragment). -/
structure LogicalProjection where
  projection_table : TableRef
  projections : List Expression
deriving DecidableEq, Repr

/-- The logical operator tree.  The source wraps each payload in
`Node<T> = {node, location, children}`; here the wrapper's fields are
inlined into each constructor (payload, location, children).  The variant
list carries the node types appearing in the source fragment
(`logical_join.rs`, `plan_query.rs`, `physical/planner.rs`). -/
inductive LogicalOperator where
  | scan (node : LogicalScan) (location : LocationRequirement)
      (children : List LogicalOperator)
  | projection (node : LogicalProjection) (location : LocationRequirement)
      (children : List LogicalOperator)
  | filter (predicate : Expression) (location : LocationRequirement)
      (children : List LogicalOperator)
  | comparisonJoin (node : LogicalComparisonJoin)
      (location : LocationRequirement) (children : List LogicalOperator)
  | magicJoin (node : LogicalMagicJoin) (location : LocationRequirement)
      (children : List LogicalOperator)
  | arbitraryJoin (node : LogicalArbitraryJoin)
      (location : LocationRequirement) (children : List LogicalOperator)
  | crossJoin (location : LocationRequirement)
      (children : List LogicalOperator)
  | empty

mutual

/-- `LogicalNode::get_output_table_refs` per node type.  Scan and Projection
report their own declared ref; Filter and CrossJoin delegate to their
children; the three join variants go through `JoinType::output_refs`. -/
def LogicalOperator.get_output_table_refs :
    LogicalOperator → List TableRef
  | .scan node _ _ => [node.table_ref]
  | .projection node _ _ => [node.projection_table]
  | .filter _ _ children => getChildrenTableRefs children
  | .comparisonJoin node _ children =>
      JoinType.output_refs node.join_type children
  | .magicJoin node _ children => JoinType.output_refs node.join_type children
  | .arbitraryJoin node _ children =>
      JoinType.output_refs node.join_type children
  | .crossJoin _ children => getChildrenTableRefs children
  | .empty => []

/-- `Node::get_children_table_refs`: concatenation of every child's output
table refs. -/
def getChildrenTableRefs : List LogicalOperator → List TableRef
  | [] => []
  | c :: cs => c.get_output_table_refs ++ getChildrenTableRefs cs

/-- `JoinType::output_refs` from `logical_join.rs`: for `LeftMark`, take the
first child's output refs (or none when there is no child) and push the
mark's own table ref; for every other join type, take the children's refs. -/
def JoinType.output_refs (jt : JoinType)
    (children : List LogicalOperator) : List TableRef :=
  match jt with
  | .leftMark table_ref =>
      (match children with
        | [] => []
        | c :: _ => c.get_output_table_refs) ++ [table_ref]
  | _ => getChildrenTableRefs children

end

/-! ## Query planning (`plan_query.rs`) -/

/-- `BoundValues`: the bound rows of a VALUES clause plus the bind-context
table ref holding the expression list's column types and names. -/
structure BoundValues where
  rows : List (List Expression)
  expressions_table : TableRef

/-- `BoundQuery`.  The source's sum is `Select | Setop | Values`; the
`Select`/`Setop` planners (`plan_select.rs`, `plan_setop.rs`) are outside
the source fragment and outside the claims, so only the `Values` arm is
carried here. -/
inductive BoundQuery where
  | values (values : BoundValues)

/-- `QueryPlanner::plan`, `Values` arm: look up the expressions table in the
bind context (propagating its error) and emit a single `Scan` node with no
children whose source is the expression list, whose types/names are copied
from the table, and whose projection is `(0..num_columns).collect()`. -/
def QueryPlanner.plan (bind_context : BindContext) (query : BoundQuery) :
    RResult LogicalOperator :=
  match query with
  | .values values =>
      match bind_context.get_table values.expressions_table with
      | .error err => .error err
      | .ok table =>
      .ok (.scan
        { table_ref := values.expressions_table
          types := table.column_types
          names := table.column_names
          projection := List.range table.num_columns
          source := .expressionList values.rows }
        .any [])

/-! ## Database context (`database/mod.rs`)

`DatabaseContext` holds a `HashMap<String, Box<dyn Catalog>>`.  The map is
embedded as an association list with unique keys; the `Catalog` trait object
is a type parameter `κ`.  `&mut self` methods return the result panick-free
together with the (possibly unchanged) new state. -/

/-- Root of all accessible catalogs. -/
structure DatabaseContext (κ : Type) where
  catalogs : List (String × κ)

/-- `HashMap::contains_key` on the embedded association list. -/
def DatabaseContext.catalog_exists (ctx : DatabaseContext κ)
    (name : String) : Bool :=
  ctx.catalogs.any (fun p => p.1 = name)

/-- `DatabaseContext::attach_catalog`: error (leaving the map untouched)
when the name is already attached, otherwise insert. -/
def DatabaseContext.attach_catalog (ctx : DatabaseContext κ)
    (name : String) (catalog : κ) :
    RResult Unit × DatabaseContext κ :=
  if ctx.catalog_exists name then
    (.error (.alreadyExists name), ctx)
  else
    (.ok (), ⟨ctx.catalogs ++ [(name, catalog)]⟩)

/-- `DatabaseContext::detach_catalog`: error when no catalog of that name is
attached, otherwise remove it. -/
def DatabaseContext.detach_catalog (ctx : DatabaseContext κ)
    (name : String) : RResult Unit × DatabaseContext κ :=
  if ctx.catalog_exists name then
    (.ok (), ⟨ctx.catalogs.filter (fun p => p.1 ≠ name)⟩)
  else
    (.error (.catalogNotAttached name), ctx)

/-- `DatabaseContext::get_catalog`: look the name up, failing with the
missing-catalog error. -/
def DatabaseContext.get_catalog (ctx : DatabaseContext κ)
    (name : String) : RResult κ :=
  match ctx.catalogs.find? (fun p => p.1 = name) with
  | some p => .ok p.2
  | none => .error (.missingCatalog name)

/-- `DatabaseContext::system_catalog`: look up `"system"`, failing with the
missing-system-catalog error. -/
def DatabaseContext.system_catalog (ctx : DatabaseContext κ) : RResult κ :=
  match ctx.catalogs.find? (fun p => p.1 = "system") with
  | some p => .ok p.2
  | none => .error .missingSystemCatalog

/-- The catalog implementations `new_with_temp` installs: the process-wide
read-only system catalog (`GLOBAL_SYSTEM_CATALOG`) and an in-memory catalog
created with a single schema name (`MemoryCatalog::new_with_schema`).  Their
internals live outside the source fragment; only their identity matters to
the claims. -/
inductive CatalogImpl where
  | globalSystem
  | memory (schema : String)
deriving DecidableEq, Repr

/-- `DatabaseContext::new_with_temp`: a context holding exactly the builtin
`"system"` catalog and a `"temp"` in-memory catalog. -/
def DatabaseContext.new_with_temp : DatabaseContext CatalogImpl :=
  ⟨[("system", .globalSystem), ("temp", .memory "temp")]⟩

/-- `Default for DatabaseContext` delegates to `new_with_temp`. -/
def DatabaseContext.defaultContext : DatabaseContext CatalogImpl :=
  DatabaseContext.new_with_temp

/-! ## Physical planner (`physical/planner.rs`) -/

/-- Outcome of running Rust code that may panic: either a value or a panic
carrying the panic message. -/
inductive PanicOr (α : Type) where
  | ok (value : α)
  | panicked (msg : String)
deriving DecidableEq, Repr

/-- An operator chain: source, middle operators, sink (spec's pipeline
shape; `chain.rs` is outside the source fragment and `create_plan` never
constructs one). -/
structure OperatorChain where
  mk ::

/-- A pipeline of operator chains. -/
structure Pipeline where
  chains : List OperatorChain

/-- `PhysicalPlanner::create_plan` as written in the source: the entire body
is `unimplemented!()`, which panics ("not implemented") for every logical
plan and every caller-supplied sink; the lowering code below it is
commented out. -/
def PhysicalPlanner.create_plan {σ : Type} (_plan : LogicalOperator)
    (_dest : σ) : PanicOr Pipeline :=
  .panicked "not implemented"

/-! ## Arrays and the binary kernel executor

The columnar `Array` and the executors live in the `rayexec_bullet` crate,
outside the source fragment; they are modelled from the spec's array and
executor contracts.  An array carries its logical type and its values; the
claims under verification use all-valid arrays, so the validity bitmap is
not carried.  Values of integer physical types are `Int`s constrained to
the width's range; values of float physical types are carried as raw bit
patterns, since IEEE-754 arithmetic is outside the embedding (no claim
depends on a float value). -/

/-- A single stored value: a fixed-width integer or a float bit pattern. -/
inductive Val where
  | int (v : Int)
  | float (bits : Nat)
deriving DecidableEq, Repr

/-- Width in bits and signedness of the integer physical types; `none` for
the float types. -/
def PhysicalType.intSpec : PhysicalType → Option (Nat × Bool)
  | .f16 | .f32 | .f64 => none
  | .i8 => some (8, true)
  | .i16 => some (16, true)
  | .i32 => some (32, true)
  | .i64 => some (64, true)
  | .i128 => some (128, true)
  | .u8 => some (8, false)
  | .u16 => some (16, false)
  | .u32 => some (32, false)
  | .u64 => some (64, false)
  | .u128 => some (128, false)

/-- Bit width of the float physical types (64 for the integer ones, where it
is unused). -/
def PhysicalType.floatBits : PhysicalType → Nat
  | .f16 => 16
  | .f32 => 32
  | .f64 => 64
  | _ => 64

/-- Whether a stored value is a valid element of the given physical storage:
the right kind, and within the width's range. -/
def Val.matches (phys : PhysicalType) : Val → Bool
  | .int v =>
      match phys.intSpec with
      | some (w, true) => -(2 ^ (w - 1) : Int) ≤ v ∧ v < (2 ^ (w - 1) : Int)
      | some (w, false) => 0 ≤ v ∧ v < (2 ^ w : Int)
      | none => false
  | .float bits =>
      match phys.intSpec with
      | some _ => false
      | none => bits < 2 ^ phys.floatBits

/-- A columnar array: logical type plus stored values; the logical length is
the number of values. -/
structure Array where
  datatype : DataType
  values : List Val

/-- `Array::logical_len`. -/
def Array.logical_len (a : Array) : Nat := a.values.length

/-- Outcome of running an executor or kernel: a value, a returned error, or
a Rust panic. -/
inductive ExecResult (α : Type) where
  | ok (value : α)
  | err (e : RayexecError)
  | panicked (msg : String)

/-- IEEE-754 remainder on raw bit patterns.  Floating-point semantics are
outside the embedding and no claim under verification constrains a float
value, so the result is left as a fixed placeholder pattern. -/
def floatRemBits (_a _b : Nat) : Nat := 0

/-- The per-row `%` kernel for a given physical storage, as instantiated by
`RemImpl`'s closure `|a, b, buf| buf.put(&(a % b))`.  For the integer types
this is Rust's truncated remainder, which panics on a zero divisor and on
`MIN % -1`; for the float types it is IEEE `fmod` on the bit patterns.  A
value of the wrong kind is the executor's downcast failure. -/
def remKernel (phys : PhysicalType) : Val → Val → ExecResult Val
  | .int a, .int b =>
      match phys.intSpec with
      | some (w, signed) =>
          if b = 0 then
            .panicked "attempt to calculate the remainder with a divisor of zero"
          else if signed ∧ a = -(2 ^ (w - 1) : Int) ∧ b = -1 then
            .panicked "attempt to calculate the remainder with overflow"
          else
            .ok (.int (Int.tmod a b))
      | none => .err .physicalTypeMismatch
  | .float a, .float b =>
      match phys.intSpec with
      | some _ => .err .physicalTypeMismatch
      | none => .ok (.float (floatRemBits a b))
  | _, _ => .err .physicalTypeMismatch

/-- Run the kernel over paired rows, propagating the first failure. -/
def mapKernel (f : Val → Val → ExecResult Val) :
    List (Val × Val) → ExecResult (List Val)
  | [] => .ok []
  | (x, y) :: rest =>
      match f x y with
      | .ok v =>
          match mapKernel f rest with
          | .ok vs => .ok (v :: vs)
          | .err e => .err e
          | .panicked m => .panicked m
      | .err e => .err e
      | .panicked m => .panicked m

/-- `BinaryExecutor::execute::<S, S, _, _>(a, b, builder, f)`: fails on a
length mismatch, fails when an array's stored values do not match the
declared physical storage, and otherwise applies the kernel pairwise,
finalizing the builder (pre-allocated to `a`'s logical length) into an
array of the builder's datatype. -/
def BinaryExecutor.execute (phys : PhysicalType) (a b : Array)
    (builderDatatype : DataType) (f : Val → Val → ExecResult Val) :
    ExecResult Array :=
  if a.values.length = b.values.length then
    if a.values.all (Val.matches phys) && b.values.all (Val.matches phys) then
      match mapKernel f (a.values.zip b.values) with
      | .ok vs => .ok ⟨builderDatatype, vs⟩
      | .err e => .err e
      | .panicked m => .panicked m
    else
      .err .physicalTypeMismatch
  else
    .err (.lengthMismatch a.values.length b.values.length)

/-! ## The `Rem` (`%`) scalar function (`rem.rs`) -/

/-- `DataTypeId`: the parameterless type-id enumeration used in function
signatures. -/
inductive DataTypeId where
  | float16
  | float32
  | float64
  | int8
  | int16
  | int32
  | int64
  | int128
  | uint8
  | uint16
  | uint32
  | uint64
  | uint128
  | utf8
  | binary
  | boolean
  | date32
  | date64
  | timestamp
  | interval
  | decimal64
  | decimal128
  | list
  | struct_
  | null_
deriving DecidableEq, Repr

/-- A function signature: input type ids, optional variadic id, return id. -/
structure Signature where
  input : List DataTypeId
  variadic : Option DataTypeId
  return_type : DataTypeId
deriving DecidableEq, Repr

/-- `Rem::signatures`: one `(T, T) -> T` signature per numeric type, in
source order (the date/interval/decimal entries are commented out in the
source). -/
def Rem.signatures : List Signature :=
  [⟨[.float16, .float16], none, .float16⟩,
   ⟨[.float32, .float32], none, .float32⟩,
   ⟨[.float64, .float64], none, .float64⟩,
   ⟨[.int8, .int8], none, .int8⟩,
   ⟨[.int16, .int16], none, .int16⟩,
   ⟨[.int32, .int32], none, .int32⟩,
   ⟨[.int64, .int64], none, .int64⟩,
   ⟨[.int128, .int128], none, .int128⟩,
   ⟨[.uint8, .uint8], none, .uint8⟩,
   ⟨[.uint16, .uint16], none, .uint16⟩,
   ⟨[.uint32, .uint32], none, .uint32⟩,
   ⟨[.uint64, .uint64], none, .uint64⟩,
   ⟨[.uint128, .uint128], none, .uint128⟩]

/-- `RemImpl<S>`: the monomorphized `%` implementation; the storage type
parameter `S` is carried as the physical-type tag, alongside the output
datatype the impl was constructed with. -/
structure RemImpl where
  phys : PhysicalType
  datatype : DataType

/-- `ScalarFunctionImpl::execute` for `RemImpl`: index the first two input
arrays (a Rust index panic when fewer are supplied) and run the binary
executor with the `%` kernel and a builder of the impl's datatype. -/
def RemImpl.execute (rimpl : RemImpl) (inputs : List Array) :
    ExecResult Array :=
  match inputs with
  | a :: b :: _ =>
      BinaryExecutor.execute rimpl.phys a b rimpl.datatype
        (remKernel rimpl.phys)
  | _ => .panicked "index out of bounds"

/-- The scalar function a planned function was planned from (only `Rem` is
part of the source fragment). -/
inductive ScalarFunctionKind where
  | rem
deriving DecidableEq, Repr

/-- `PlannedScalarFunction`: the originating function, the resolved return
type, the input expressions, and the selected implementation. -/
structure PlannedScalarFunction where
  function : ScalarFunctionKind
  return_type : DataType
  inputs : List Expression
  function_impl : RemImpl

/-- `plan_check_num_args` (from the shared function helpers; modelled from
the spec: "verify argument count", failing with an arity error). -/
def plan_check_num_args (functionName : String)
    (inputs : List Expression) (expected : Nat) : RResult Unit :=
  if inputs.length = expected then .ok ()
  else .error (.invalidNumArgs functionName expected inputs.length)

/-- `Rem::plan`: check the arity is 2, resolve both input datatypes against
the table list (propagating their errors), then dispatch on the type pair:
each of the 13 diagonal numeric pairs selects the corresponding
monomorphized `RemImpl` and return type; every other pair fails with
`invalid_input_types_error("%", [a, b])`. -/
def Rem.plan (table_list : TableList) (inputs : List Expression) :
    RResult PlannedScalarFunction :=
  match inputs with
  | [e1, e2] =>
      match e1.datatype table_list with
      | .error err => .error err
      | .ok t1 =>
      match e2.datatype table_list with
      | .error err => .error err
      | .ok t2 =>
      match t1, t2 with
      | .float16, .float16 =>
          .ok ⟨.rem, .float16, inputs, ⟨.f16, .float16⟩⟩
      | .float32, .float32 =>
          .ok ⟨.rem, .float32, inputs, ⟨.f32, .float32⟩⟩
      | .float64, .float64 =>
          .ok ⟨.rem, .float64, inputs, ⟨.f64, .float64⟩⟩
      | .int8, .int8 => .ok ⟨.rem, .int8, inputs, ⟨.i8, .int8⟩⟩
      | .int16, .int16 => .ok ⟨.rem, .int16, inputs, ⟨.i16, .int16⟩⟩
      | .int32, .int32 => .ok ⟨.rem, .int32, inputs, ⟨.i32, .int32⟩⟩
      | .int64, .int64 => .ok ⟨.rem, .int64, inputs, ⟨.i64, .int64⟩⟩
      | .int128, .int128 => .ok ⟨.rem, .int128, inputs, ⟨.i128, .int128⟩⟩
      | .uint8, .uint8 => .ok ⟨.rem, .uint8, inputs, ⟨.u8, .uint8⟩⟩
      | .uint16, .uint16 => .ok ⟨.rem, .uint16, inputs, ⟨.u16, .uint16⟩⟩
      | .uint32, .uint32 => .ok ⟨.rem, .uint32, inputs, ⟨.u32, .uint32⟩⟩
      | .uint64, .uint64 => .ok ⟨.rem, .uint64, inputs, ⟨.u64, .uint64⟩⟩
      | .uint128, .uint128 =>
          .ok ⟨.rem, .uint128, inputs, ⟨.u128, .uint128⟩⟩
      | a, b => .error (.invalidInputTypes "%" [a, b])
  | _ => .error (.invalidNumArgs "%" 2 inputs.length)

/-! ## Theorems -/

/-- C1: contrary to the claim that `PhysicalPlanner::create_plan` lowers
every logical tree into a `Pipeline` terminating in the caller's sink, the
source's body is `unimplemented!()`: the call panics ("not implemented")
unconditionally, for every logical operator tree and every caller-supplied
sink, and never produces a `Pipeline` value. -/
theorem create_plan_unconditionally_panics {σ : Type}
    (plan : LogicalOperator) (sink : σ) :
    PhysicalPlanner.create_plan plan sink = .panicked "not implemented" ∧
    ∀ p : Pipeline, PhysicalPlanner.create_plan plan sink ≠ .ok p := by
  refine ⟨rfl, fun p h => ?_⟩
  simp [PhysicalPlanner.create_plan] at h

/-- C2, counterexample: a `LeftMark` comparison join over two scan children
with refs 1 and 2 and mark ref 7.  The code returns only the first (left)
child's refs plus the mark ref, `[1, 7]`, not the refs of both children
followed by the mark ref, `[1, 2, 7]`, as the claim states. -/
theorem leftmark_both_children_counterexample :
    (LogicalOperator.comparisonJoin ⟨.leftMark 7, []⟩ .any
        [.scan ⟨1, [], [], [], .table "" "" ""⟩ .any [],
         .scan ⟨2, [], [], [], .table "" "" ""⟩ .any []]).get_output_table_refs
      = [1, 7] ∧
    getChildrenTableRefs
        [.scan ⟨1, [], [], [], .table "" "" ""⟩ .any [],
         .scan ⟨2, [], [], [], .table "" "" ""⟩ .any []] ++ [7]
      = [1, 2, 7] ∧
    ([1, 7] : List TableRef) ≠ [1, 2, 7] := by
  refine ⟨?_, ?_, by decide⟩ <;>
    simp [LogicalOperator.get_output_table_refs, getChildrenTableRefs,
      JoinType.output_refs]

/-- C2 (amended): for every join node (comparison, magic, or arbitrary)
whose join type is `LeftMark {table_ref}`, `get_output_table_refs` returns
the output refs of the *first* (left) child only — or the empty list when
there are no children — with the LeftMark's own synthetic `table_ref`
appended as the last element; the second child's refs are not included. -/
theorem leftmark_output_refs (tref : TableRef)
    (conds : List ComparisonCondition) (mref : MaterializationRef)
    (cond : Expression) (loc : LocationRequirement)
    (children : List LogicalOperator) :
    (LogicalOperator.comparisonJoin ⟨.leftMark tref, conds⟩ loc
        children).get_output_table_refs
      = ((children.head?.map LogicalOperator.get_output_table_refs).getD [])
          ++ [tref] ∧
    (LogicalOperator.magicJoin ⟨mref, .leftMark tref, conds⟩ loc
        children).get_output_table_refs
      = ((children.head?.map LogicalOperator.get_output_table_refs).getD [])
          ++ [tref] ∧
    (LogicalOperator.arbitraryJoin ⟨.leftMark tref, cond⟩ loc
        children).get_output_table_refs
      = ((children.head?.map LogicalOperator.get_output_table_refs).getD [])
          ++ [tref] := by
  cases children <;>
    simp [LogicalOperator.get_output_table_refs, JoinType.output_refs]

/-- C5: `ComparisonCondition::flip_sides` is an involution — applying it
twice returns the original condition: the operator is flipped back to
itself and the left/right expressions return to their original sides. -/
theorem flip_sides_involutive (c : ComparisonCondition) :
    c.flip_sides.flip_sides = c := by
  cases c with
  | mk l r op => cases op <;> rfl

/-- C6: `ComparisonOperator::flip` produces the swapped-operand equivalent:
`Lt ↦ Gt`, `LtEq ↦ GtEq`, `Eq ↦ Eq`, and symmetrically `Gt ↦ Lt`,
`GtEq ↦ LtEq`, `NotEq ↦ NotEq`. -/
theorem comparison_operator_flip_spec :
    ComparisonOperator.lt.flip = .gt ∧
    ComparisonOperator.ltEq.flip = .gtEq ∧
    ComparisonOperator.eq.flip = .eq ∧
    ComparisonOperator.gt.flip = .lt ∧
    ComparisonOperator.gtEq.flip = .ltEq ∧
    ComparisonOperator.notEq.flip = .notEq := by
  exact ⟨rfl, rfl, rfl, rfl, rfl, rfl⟩

/-- C1, witness: the panic outcome at a concrete input — the empty logical
operator and a unit sink. -/
theorem create_plan_unconditionally_panics_witness :
    PhysicalPlanner.create_plan (σ := Unit) .empty () =
      .panicked "not implemented" ∧
    PhysicalPlanner.create_plan (σ := Unit) .empty () ≠ .ok ⟨[]⟩ :=
  ⟨(create_plan_unconditionally_panics .empty ()).1,
   (create_plan_unconditionally_panics .empty ()).2 ⟨[]⟩⟩

/-- Removing every pair whose key equals `name` leaves a map in which
`name` is no longer attached. -/
theorem catalog_exists_filter {κ : Type} (l : List (String × κ))
    (name : String) :
    (DatabaseContext.catalog_exists ⟨l.filter (fun p => p.1 ≠ name)⟩ name)
      = false := by
  simp only [DatabaseContext.catalog_exists, List.any_eq_false,
    List.mem_filter]
  intro p hp
  simpa using hp.2

/-- C7: attaching a catalog under an already-attached name fails with the
already-exists error and leaves the context unchanged; a successful detach
of that name succeeds and a subsequent attach of the same name then
succeeds; attaching under a fresh name succeeds. -/
theorem attach_detach_catalog_spec {κ : Type} (ctx : DatabaseContext κ)
    (name : String) (cat cat' : κ) :
    (ctx.catalog_exists name = true →
      ctx.attach_catalog name cat = (.error (.alreadyExists name), ctx) ∧
      (ctx.detach_catalog name).1 = .ok () ∧
      ((ctx.detach_catalog name).2.attach_catalog name cat').1 = .ok ()) ∧
    (ctx.catalog_exists name = false →
      (ctx.attach_catalog name cat).1 = .ok ()) := by
  constructor
  · intro h
    refine ⟨?_, ?_, ?_⟩
    · simp [DatabaseContext.attach_catalog, h]
    · simp [DatabaseContext.detach_catalog, h]
    · have hdet : ctx.detach_catalog name
          = (.ok (), ⟨ctx.catalogs.filter (fun p => p.1 ≠ name)⟩) := by
        simp [DatabaseContext.detach_catalog, h]
      rw [hdet]
      simp only [DatabaseContext.attach_catalog, catalog_exists_filter]
      simp
  · intro h
    simp [DatabaseContext.attach_catalog, h]

/-- C7, witness: on a context with catalog "x" attached, re-attaching "x"
fails already-exists and leaves the context as it was, detaching succeeds,
re-attaching after the detach succeeds; attaching the fresh name on an
empty context succeeds. -/
theorem attach_detach_catalog_spec_witness :
    ((DatabaseContext.mk [("x", (0 : Nat))]).attach_catalog "x" 1
        = (.error (.alreadyExists "x"), ⟨[("x", 0)]⟩) ∧
      ((DatabaseContext.mk [("x", (0 : Nat))]).detach_catalog "x").1
        = .ok () ∧
      (((DatabaseContext.mk [("x", (0 : Nat))]).detach_catalog
          "x").2.attach_catalog "x" 2).1 = .ok ()) ∧
    ((DatabaseContext.mk ([] : List (String × Nat))).attach_catalog "x"
        1).1 = .ok () :=
  ⟨(attach_detach_catalog_spec ⟨[("x", 0)]⟩ "x" 1 2).1 rfl,
   (attach_detach_catalog_spec ⟨[]⟩ "x" 1 2).2 rfl⟩

/-- C10: a context built by `new_with_temp` (which `Default` delegates to)
holds exactly the two catalogs "system" and "temp"; both exist,
`system_catalog` succeeds with the global system catalog, and `get_catalog`
fails with the missing-catalog error for every other name. -/
theorem new_with_temp_spec :
    DatabaseContext.new_with_temp.catalogs.map Prod.fst
        = ["system", "temp"] ∧
    DatabaseContext.new_with_temp.catalog_exists "system" = true ∧
    DatabaseContext.new_with_temp.catalog_exists "temp" = true ∧
    DatabaseContext.new_with_temp.system_catalog = .ok .globalSystem ∧
    DatabaseContext.defaultContext = DatabaseContext.new_with_temp ∧
    ∀ name : String, name ≠ "system" → name ≠ "temp" →
      DatabaseContext.new_with_temp.get_catalog name
        = .error (.missingCatalog name) := by
  refine ⟨rfl, rfl, rfl, rfl, rfl, fun name h1 h2 => ?_⟩
  simp [DatabaseContext.get_catalog, DatabaseContext.new_with_temp,
    List.find?, Ne.symm h1, Ne.symm h2]

/-- C10, witness: lookup of the unattached name "foo" fails. -/
theorem new_with_temp_spec_witness :
    DatabaseContext.new_with_temp.get_catalog "foo"
      = .error (.missingCatalog "foo") :=
  new_with_temp_spec.2.2.2.2.2 "foo" (by decide) (by decide)

/-- C9: `ColumnExpr::datatype` propagates the bind context's missing-table
error when the table ref is unknown; with the table resolved, it fails with
the missing-column error when the column index is out of range, and
otherwise returns exactly the column type declared at that index. -/
theorem column_expr_datatype_spec (bind_context : BindContext)
    (e : ColumnExpr) :
    (bind_context.tables[e.table_scope]? = none →
      e.datatype bind_context = .error (.missingTable e.table_scope)) ∧
    (∀ table : Table,
      bind_context.get_table e.table_scope = .ok table →
      (∀ h : e.column < table.column_types.length,
        e.datatype bind_context = .ok table.column_types[e.column]) ∧
      (table.column_types.length ≤ e.column →
        e.datatype bind_context
          = .error (.missingColumn e.table_scope e.column))) := by
  constructor
  · intro h
    simp [ColumnExpr.datatype, TableList.get_table, h]
  · intro table h
    constructor
    · intro hlt
      simp [ColumnExpr.datatype, h, List.getElem?_eq_getElem hlt]
    · intro hge
      simp [ColumnExpr.datatype, h, List.getElem?_eq_none hge]

/-- C9, witness: against a bind context with one table of types
`[Int32, Utf8]`: column 1 of table 0 resolves to `Utf8`, column 5 of table
0 fails missing-column, and any column of unknown table 3 fails
missing-table. -/
theorem column_expr_datatype_spec_witness :
    (ColumnExpr.mk 3 0).datatype ⟨[⟨none, [.int32, .utf8], ["a", "b"]⟩]⟩
        = .error (.missingTable 3) ∧
    (ColumnExpr.mk 0 1).datatype ⟨[⟨none, [.int32, .utf8], ["a", "b"]⟩]⟩
        = .ok .utf8 ∧
    (ColumnExpr.mk 0 5).datatype ⟨[⟨none, [.int32, .utf8], ["a", "b"]⟩]⟩
        = .error (.missingColumn 0 5) :=
  ⟨(column_expr_datatype_spec ⟨[⟨none, [.int32, .utf8], ["a", "b"]⟩]⟩
      ⟨3, 0⟩).1 rfl,
   ((column_expr_datatype_spec ⟨[⟨none, [.int32, .utf8], ["a", "b"]⟩]⟩
      ⟨0, 1⟩).2 ⟨none, [.int32, .utf8], ["a", "b"]⟩ rfl).1 (by decide),
   ((column_expr_datatype_spec ⟨[⟨none, [.int32, .utf8], ["a", "b"]⟩]⟩
      ⟨0, 5⟩).2 ⟨none, [.int32, .utf8], ["a", "b"]⟩ rfl).2 (by decide)⟩

/-- C8: planning a bound `Values` query whose expressions table resolves in
the bind context yields a single `Scan` node with no children, source
`ExpressionList` carrying the bound rows, the bind context's table ref,
the table's types and names, and the full in-order projection
`0..num_columns`. -/
theorem queryplanner_plan_values (bind_context : BindContext)
    (values : BoundValues) (table : Table)
    (h : bind_context.get_table values.expressions_table = .ok table) :
    QueryPlanner.plan bind_context (.values values) =
      .ok (.scan
        { table_ref := values.expressions_table
          types := table.column_types
          names := table.column_names
          projection := List.range table.num_columns
          source := .expressionList values.rows }
        .any []) := by
  simp [QueryPlanner.plan, h]

/-- C8, witness: a two-row VALUES over a one-column Int32 expressions
table. -/
theorem queryplanner_plan_values_witness :
    QueryPlanner.plan ⟨[⟨none, [.int32], ["c0"]⟩]⟩
        (.values ⟨[[.column ⟨0, 0⟩]], 0⟩) =
      .ok (.scan
        { table_ref := 0
          types := [.int32]
          names := ["c0"]
          projection := List.range 1
          source := .expressionList [[.column ⟨0, 0⟩]] }
        .any []) :=
  queryplanner_plan_values ⟨[⟨none, [.int32], ["c0"]⟩]⟩
    ⟨[[.column ⟨0, 0⟩]], 0⟩ ⟨none, [.int32], ["c0"]⟩ rfl

/-- The 13 numeric types for which the arithmetic family registers a
`(T, T) -> T` signature. -/
def numericTypes : List DataType :=
  [.float16, .float32, .float64, .int8, .int16, .int32, .int64, .int128,
   .uint8, .uint16, .uint32, .uint64, .uint128]

/-- C3: given two input expressions whose datatypes resolve, `Rem::plan`
succeeds exactly when both datatypes are the same numeric type `T` among
the 13 numeric types, in which case the planned function's return type is
`T`; for every other type pair it fails with the invalid-input-types error
naming the function (`"%"`) and the offending type tuple. -/
theorem rem_plan_spec (table_list : TableList) (e1 e2 : Expression)
    (t1 t2 : DataType)
    (h1 : e1.datatype table_list = .ok t1)
    (h2 : e2.datatype table_list = .ok t2) :
    (t1 ∈ numericTypes ∧ t2 = t1 →
      (Rem.plan table_list [e1, e2]).map (fun p => p.return_type)
        = .ok t1) ∧
    (¬(t1 ∈ numericTypes ∧ t2 = t1) →
      Rem.plan table_list [e1, e2]
        = .error (.invalidInputTypes "%" [t1, t2])) := by
  constructor
  · rintro ⟨hmem, rfl⟩
    simp only [numericTypes, List.mem_cons, List.mem_singleton,
      List.not_mem_nil, or_false] at hmem
    rcases hmem with rfl | rfl | rfl | rfl | rfl | rfl | rfl | rfl | rfl |
        rfl | rfl | rfl | rfl <;>
      simp [Rem.plan, h1, h2, Except.map]
  · intro hn
    simp only [Rem.plan, h1, h2]
    split
    all_goals simp_all [numericTypes]

/-- C3, witness: against a table with columns `[Int32, Utf8]`, planning `%`
over two Int32 columns succeeds with return type Int32, and planning it
over an Int32 and a Utf8 column fails with the invalid-input-types error
for the tuple `[Int32, Utf8]`. -/
theorem rem_plan_spec_witness :
    (Rem.plan ⟨[⟨none, [.int32, .utf8], ["a", "b"]⟩]⟩
        [.column ⟨0, 0⟩, .column ⟨0, 0⟩]).map (fun p => p.return_type)
      = .ok .int32 ∧
    Rem.plan ⟨[⟨none, [.int32, .utf8], ["a", "b"]⟩]⟩
        [.column ⟨0, 0⟩, .column ⟨0, 1⟩]
      = .error (.invalidInputTypes "%" [.int32, .utf8]) :=
  ⟨(rem_plan_spec ⟨[⟨none, [.int32, .utf8], ["a", "b"]⟩]⟩
      (.column ⟨0, 0⟩) (.column ⟨0, 0⟩) .int32 .int32 rfl rfl).1
      ⟨by simp [numericTypes], rfl⟩,
   (rem_plan_spec ⟨[⟨none, [.int32, .utf8], ["a", "b"]⟩]⟩
      (.column ⟨0, 0⟩) (.column ⟨0, 1⟩) .int32 .utf8 rfl rfl).2
      (by simp [numericTypes])⟩

/-- A successful kernel run over paired rows yields one output row per
input pair. -/
theorem mapKernel_length (f : Val → Val → ExecResult Val) :
    ∀ (l : List (Val × Val)) (vs : List Val),
      mapKernel f l = .ok vs → vs.length = l.length := by
  intro l
  induction l with
  | nil =>
      intro vs h
      simp only [mapKernel] at h
      cases h
      rfl
  | cons p rest ih =>
      obtain ⟨x, y⟩ := p
      intro vs h
      simp only [mapKernel] at h
      cases hf : f x y with
      | ok v =>
          rw [hf] at h
          cases hr : mapKernel f rest with
          | ok tail =>
              rw [hr] at h
              cases h
              simp [ih tail hr]
          | err e => rw [hr] at h; cases h
          | panicked m => rw [hr] at h; cases h
      | err e => rw [hf] at h; cases h
      | panicked m => rw [hf] at h; cases h

/-- In every successful `Rem::plan` branch, the selected implementation is
constructed with the same datatype that becomes the planned return type. -/
theorem rem_plan_ok_impl (table_list : TableList)
    (inputs : List Expression) (p : PlannedScalarFunction)
    (h : Rem.plan table_list inputs = .ok p) :
    p.function_impl.datatype = p.return_type := by
  unfold Rem.plan at h
  split at h
  · split at h
    · cases h
    · split at h
      · cases h
      · split at h <;> first | (cases h; rfl) | cases h
  · cases h

/-- A successful `RemImpl::execute` run produces an array of the impl's
datatype whose length matches the (necessarily equal) input lengths. -/
theorem rem_execute_ok_shape (rimpl : RemImpl) (a b : Array)
    (rest : List Array) (out : Array)
    (h : rimpl.execute (a :: b :: rest) = .ok out) :
    out.datatype = rimpl.datatype ∧
    out.values.length = a.values.length ∧
    a.values.length = b.values.length := by
  replace h : BinaryExecutor.execute rimpl.phys a b rimpl.datatype
      (remKernel rimpl.phys) = .ok out := h
  unfold BinaryExecutor.execute at h
  by_cases hlen : a.values.length = b.values.length
  · rw [if_pos hlen] at h
    by_cases hmat : (a.values.all (Val.matches rimpl.phys)
        && b.values.all (Val.matches rimpl.phys)) = true
    · rw [if_pos hmat] at h
      cases hmk : mapKernel (remKernel rimpl.phys)
          (a.values.zip b.values) with
      | ok vs =>
          rw [hmk] at h
          cases h
          have hl := mapKernel_length _ _ _ hmk
          simp only [List.length_zip] at hl
          refine ⟨rfl, ?_, hlen⟩
          show vs.length = a.values.length
          omega
      | err e => rw [hmk] at h; cases h
      | panicked m => rw [hmk] at h; cases h
    · rw [if_neg hmat] at h; cases h
  · rw [if_neg hlen] at h; cases h

/-- The table list and table ref of the `rem_i32` unit test: one table with
columns `a, b : Int32` pushed onto the empty table list. -/
def remTestTables : TableList × TableRef :=
  TableList.empty.push_table none [.int32, .int32] ["a", "b"]

/-- C4: executing the planned `%` on Int32 arrays `[4, 5, 6]` and
`[1, 2, 3]` yields the Int32 array `[0, 1, 0]` (the `rem_i32` unit test);
and in general, whenever `Rem::plan` succeeds, a successful execution of
the planned implementation yields an array of the declared return type
whose length equals the (equal) input lengths. -/
theorem rem_execute_spec :
    (∃ p, Rem.plan remTestTables.1
        [.column ⟨remTestTables.2, 0⟩, .column ⟨remTestTables.2, 1⟩]
          = .ok p ∧
      p.return_type = .int32 ∧
      p.function_impl.execute
          [⟨.int32, [.int 4, .int 5, .int 6]⟩,
           ⟨.int32, [.int 1, .int 2, .int 3]⟩]
        = .ok ⟨.int32, [.int 0, .int 1, .int 0]⟩) ∧
    (∀ (table_list : TableList) (inputs : List Expression)
        (p : PlannedScalarFunction) (a b : Array) (rest : List Array)
        (out : Array),
      Rem.plan table_list inputs = .ok p →
      p.function_impl.execute (a :: b :: rest) = .ok out →
      out.datatype = p.return_type ∧
      out.values.length = a.values.length ∧
      a.values.length = b.values.length) := by
  constructor
  · exact ⟨_, rfl, rfl, rfl⟩
  · intro table_list inputs p a b rest out hplan hexec
    have hd := rem_plan_ok_impl table_list inputs p hplan
    have hs := rem_execute_ok_shape p.function_impl a b rest out hexec
    exact ⟨hs.1.trans hd, hs.2.1, hs.2.2⟩

/-- C4, witness: the general part instantiated on the `rem_i32` test data:
output datatype Int32 and all three arrays of length three. -/
theorem rem_execute_spec_witness :
    (Array.mk .int32 [.int 0, .int 1, .int 0]).datatype = DataType.int32 ∧
    (Array.mk .int32 [.int 0, .int 1, .int 0]).values.length
      = (Array.mk .int32 [.int 4, .int 5, .int 6]).values.length ∧
    (Array.mk .int32 [.int 4, .int 5, .int 6]).values.length
      = (Array.mk .int32 [.int 1, .int 2, .int 3]).values.length :=
  rem_execute_spec.2 remTestTables.1
    [.column ⟨remTestTables.2, 0⟩, .column ⟨remTestTables.2, 1⟩]
    ⟨.rem, .int32, [.column ⟨remTestTables.2, 0⟩,
      .column ⟨remTestTables.2, 1⟩], ⟨.i32, .int32⟩⟩
    ⟨.int32, [.int 4, .int 5, .int 6]⟩
    ⟨.int32, [.int 1, .int 2, .int 3]⟩ []
    ⟨.int32, [.int 0, .int 1, .int 0]⟩ rfl rfl

end Rayexec
